import Mathlib

/-!
Verification of the pizero-eink-apps hardware core against its
natural-language specification.

The Lean definitions below are shallow embeddings of the Python source:

* `GT1151` namespace  — `src/TP_lib/gt1151.py` (touch controller driver):
  register decode (`read_touch`), coordinate remapping (`_map_x`/`_map_y`),
  and the `scan` old-frame snapshot.
* `EpdV3` / `EpdV4` namespaces — `src/TP_lib/epd2in13_V3.py` and
  `src/TP_lib/epd2in13_V4.py` (display protocol drivers): the SPI
  command/data traces of `Clear`, `displayPartBaseImage`, the busy-wait
  loops, and `getbuffer`.
* `ButtonInput` namespace — `src/display/button_input.py`: the press /
  long-press-monitor / release state machine.
* `TouchHandler` namespace — `src/display/touch_handler.py`: the IRQ
  polling loop and its exception handling, with callback exceptions
  modelled as `Except` values.

Stateful Python is modelled by explicit state passing; I2C reads are
inputs (`Option` for fallible reads); side effects on the SPI bus are
reified as event traces.
-/

namespace GT1151

/-- Display dimensions used by the touch mapping (`X_MAX` in the source). -/
def X_MAX : Nat := 250

/-- Display dimensions used by the touch mapping (`Y_MAX` in the source). -/
def Y_MAX : Nat := 122

/-- `_map_x(raw_x) = int((raw_x * self.X_MAX) / 1024)`.  For the integer
inputs that occur, the float multiply and the division by the power of two
are exact, so `int(...)` truncation coincides with natural division. -/
def map_x (raw_x : Nat) : Nat := raw_x * X_MAX / 1024

/-- `_map_y(raw_y) = int((raw_y * self.Y_MAX) / 1024)`. -/
def map_y (raw_y : Nat) : Nat := raw_y * Y_MAX / 1024

/-- Mutable touch state `GT_Development`: touch count plus per-point
coordinate arrays (`[0]*5` each at construction). -/
structure GT_Development where
  Touch : Nat
  X : List Nat
  Y : List Nat
  S : List Nat
deriving Repr, DecidableEq

/-- The freshly constructed `GT_Development()` state. -/
def GT_Development.init : GT_Development :=
  { Touch := 0, X := List.replicate 5 0, Y := List.replicate 5 0,
    S := List.replicate 5 0 }

/-- Previous touch state `GT_Old` (same shape as `GT_Development`). -/
structure GT_Old where
  Touch : Nat
  X : List Nat
  Y : List Nat
  S : List Nat
deriving Repr, DecidableEq

/-- The freshly constructed `GT_Old()` state. -/
def GT_Old.init : GT_Old :=
  { Touch := 0, X := List.replicate 5 0, Y := List.replicate 5 0,
    S := List.replicate 5 0 }

/-- Raw X decode used in `read_touch`:
`x = point_data[offset + 1] | (point_data[offset + 2] << 8)` with
`offset = i * 8`. -/
def decodeRawX (bytes : List Nat) (i : Nat) : Nat :=
  (bytes.getD (8 * i + 1) 0) ||| ((bytes.getD (8 * i + 2) 0) <<< 8)

/-- Raw Y decode used in `read_touch`:
`y = point_data[offset + 3] | (point_data[offset + 4] << 8)`. -/
def decodeRawY (bytes : List Nat) (i : Nat) : Nat :=
  (bytes.getD (8 * i + 3) 0) ||| ((bytes.getD (8 * i + 4) 0) <<< 8)

/-- One iteration of the parse loop in `read_touch`: point `i` is decoded
and stored (mapped to display coordinates) exactly when all four byte
indices `offset+1 .. offset+4` are in range; a shorter buffer raises
`IndexError` at that point (caught by the enclosing `except`), so the
point's coordinates are left untouched. -/
def parsePoint (dev : GT_Development) (bytes : List Nat) (i : Nat) :
    GT_Development :=
  if 8 * i + 4 < bytes.length then
    { dev with
      X := dev.X.set i (map_x (decodeRawX bytes i)),
      Y := dev.Y.set i (map_y (decodeRawY bytes i)) }
  else dev

/-- The full parse loop `for i in range(touch_count)` of `read_touch`.
(When a point raises `IndexError`, every later point would be out of range
too, so the guarded fold computes exactly the coordinates written before
the exception.) -/
def parsePoints (dev : GT_Development) (bytes : List Nat) (count : Nat) :
    GT_Development :=
  (List.range count).foldl (fun d i => parsePoint d bytes i) dev

/-- Result of one `read_touch()` call: returned count, post-call device
state, the lengths of the point-data register reads issued, and whether
the point-info register was cleared (acknowledged). -/
structure ReadTouchResult where
  ret : Nat
  dev : GT_Development
  dataReads : List Nat
  ack : Bool
deriving Repr, DecidableEq

/-- `read_touch()` from `src/TP_lib/gt1151.py`, as a function of the
I2C environment: `pointInfo` is the result of the 1-byte read of the
`POINT_INFO` register (`none` = I2C failure, mapped to Python `None`),
and `pointData n` the result of reading `n` bytes from `POINT1_REG`.
Python truthiness of the read results (`if not point_info`, `if
point_data`) treats both `None` and the empty list as falsy. -/
def read_touch (mock_mode : Bool) (dev : GT_Development)
    (pointInfo : Option (List Nat)) (pointData : Nat → Option (List Nat)) :
    ReadTouchResult :=
  if mock_mode then
    { ret := 0,
      dev := { dev with Touch := 0, X := List.replicate 5 0,
                        Y := List.replicate 5 0 },
      dataReads := [], ack := false }
  else
    match pointInfo with
    | none => { ret := 0, dev := dev, dataReads := [], ack := false }
    | some info =>
      if info = [] then
        { ret := 0, dev := dev, dataReads := [], ack := false }
      else
        -- touch_count = point_info[0] & 0x0F, inlined below
        if 0 < info.getD 0 0 &&& 0x0F ∧ info.getD 0 0 &&& 0x0F ≤ 5 then
          match pointData ((info.getD 0 0 &&& 0x0F) * 8) with
          | none =>
            { ret := 0, dev := { dev with Touch := 0 },
              dataReads := [(info.getD 0 0 &&& 0x0F) * 8], ack := false }
          | some bytes =>
            if bytes = [] then
              { ret := 0, dev := { dev with Touch := 0 },
                dataReads := [(info.getD 0 0 &&& 0x0F) * 8], ack := false }
            else if bytes.length < (info.getD 0 0 &&& 0x0F) * 8 then
              -- parse loop raises IndexError; the except handler sets
              -- gt_dev.Touch = 0 and returns 0, partial writes remain
              { ret := 0,
                dev := { parsePoints dev bytes (info.getD 0 0 &&& 0x0F) with
                         Touch := 0 },
                dataReads := [(info.getD 0 0 &&& 0x0F) * 8], ack := false }
            else
              { ret := info.getD 0 0 &&& 0x0F,
                dev := { parsePoints dev bytes (info.getD 0 0 &&& 0x0F) with
                         Touch := info.getD 0 0 &&& 0x0F },
                dataReads := [(info.getD 0 0 &&& 0x0F) * 8], ack := true }
        else
          { ret := 0, dev := { dev with Touch := 0 },
            dataReads := [], ack := false }

/-- The old-state snapshot taken at the top of `scan()`:
`gt_old.X[0] = gt_dev.X[0]; gt_old.Y[0] = gt_dev.Y[0];
gt_old.Touch = gt_dev.Touch`. -/
def scanSaveOld (dev : GT_Development) (old : GT_Old) : GT_Old :=
  { old with
    X := old.X.set 0 (dev.X.getD 0 0),
    Y := old.Y.set 0 (dev.Y.getD 0 0),
    Touch := dev.Touch }

/-- `scan()`: save the old state, then `read_touch()` refreshes the
current state.  Returns the `read_touch` result paired with the new
"previous" frame. -/
def scan (mock_mode : Bool) (dev : GT_Development) (old : GT_Old)
    (pointInfo : Option (List Nat)) (pointData : Nat → Option (List Nat)) :
    ReadTouchResult × GT_Old :=
  (read_touch mock_mode dev pointInfo pointData, scanSaveOld dev old)

end GT1151

/-- An observable transport event of the display drivers: a command byte,
a single data byte, a bulk data transfer (one transport call with the
whole payload), or a busy-wait on the busy line. -/
inductive EpdEvent where
  | cmd (b : Nat)
  | data (b : Nat)
  | bulk (payload : List Nat)
  | waitIdle
deriving Repr, DecidableEq

/-- The payloads of the bulk transfers in a trace, in order. -/
def bulkPayloads : List EpdEvent → List (List Nat)
  | [] => []
  | EpdEvent.bulk p :: rest => p :: bulkPayloads rest
  | _ :: rest => bulkPayloads rest

namespace EpdV3

/-- `EPD.WIDTH` in `src/TP_lib/epd2in13_V3.py`. -/
def WIDTH : Nat := 122

/-- `EPD.HEIGHT` in `src/TP_lib/epd2in13_V3.py`. -/
def HEIGHT : Nat := 250

/-- `_send_command`: one command byte on the bus. -/
def send_command (b : Nat) : List EpdEvent := [EpdEvent.cmd b]

/-- `_send_data`: one data byte on the bus. -/
def send_data (b : Nat) : List EpdEvent := [EpdEvent.data b]

/-- `_send_data_bulk`: the whole payload in a single transport call. -/
def send_data_bulk (p : List Nat) : List EpdEvent := [EpdEvent.bulk p]

/-- `_wait_until_idle` as a trace event. -/
def wait_until_idle_evt : List EpdEvent := [EpdEvent.waitIdle]

/-- `Clear(color)` (hardware path): write-RAM command `0x24`, one bulk
transfer of `[color] * (height * width // 8)`, then the full-refresh
activate sequence `0x22`, data `0xf7`, `0x20`, and a busy-wait. -/
def Clear (color : Nat) : List EpdEvent :=
  send_command 0x24 ++
  send_data_bulk (List.replicate (HEIGHT * WIDTH / 8) color) ++
  send_command 0x22 ++ send_data 0xf7 ++ send_command 0x20 ++
  wait_until_idle_evt

/-- `displayPartBaseImage(image_buffer)` (hardware path): the buffer is
written to the `0x24` ("old data") bank and then, unchanged, to the
`0x26` ("new data") bank, followed by the full-refresh activate
(`0x22`, `0xf7`, `0x20`) and a busy-wait. -/
def displayPartBaseImage (image_buffer : List Nat) : List EpdEvent :=
  send_command 0x24 ++ send_data_bulk image_buffer ++
  send_command 0x26 ++ send_data_bulk image_buffer ++
  send_command 0x22 ++ send_data 0xf7 ++ send_command 0x20 ++
  wait_until_idle_evt

/-- The busy-poll loop of `_wait_until_idle` (hardware path), discretised
in 10 ms sleep steps: the busy line is read at steps `k = 0, 1, ...`; when
it reads idle the loop exits normally (result `false`); after each sleep
the 10-second deadline is checked, so after sleep `k+1` the loop warns and
breaks (result `true`, "Display busy timeout!") once `k + 1 > 1000`.
The fuel argument is the number of remaining permitted iterations and is
chosen so it never runs out before the deadline check fires. -/
def waitUntilIdleAux (busy : Nat → Bool) : Nat → Nat → Bool
  | _, 0 => true
  | k, fuel + 1 =>
    if busy k then
      if k + 1 > 1000 then true
      else waitUntilIdleAux busy (k + 1) fuel
    else false

/-- `_wait_until_idle` (hardware path) over a busy-line signal: `true`
means the 10 s timeout elapsed (warning logged), `false` means the line
reported idle. The function returns no value in Python; this boolean is
the observable outcome (which log path was taken), not a return value. -/
def wait_until_idle (busy : Nat → Bool) : Bool :=
  waitUntilIdleAux busy 0 1001

/-- `_wait_until_idle` in mock mode: a fixed 10 ms sleep, no polling.
The result is the number of milliseconds slept. -/
def wait_until_idle_mock : Nat := 10

end EpdV3

namespace EpdV4

/-- `self.width` in `src/TP_lib/epd2in13_V4.py`. -/
def width : Nat := 122

/-- `self.height` in `src/TP_lib/epd2in13_V4.py`. -/
def height : Nat := 250

/-- `send_command`: one command byte. -/
def send_command (b : Nat) : List EpdEvent := [EpdEvent.cmd b]

/-- `send_data`: one data byte. -/
def send_data (b : Nat) : List EpdEvent := [EpdEvent.data b]

/-- `send_data2`: bulk transfer via `spi_writebyte2` in one call. -/
def send_data2 (p : List Nat) : List EpdEvent := [EpdEvent.bulk p]

/-- `ReadBusy` as a trace event. -/
def readBusy_evt : List EpdEvent := [EpdEvent.waitIdle]

/-- `TurnOnDisplay`: `0x22`, data `0xf7`, `0x20`, then `ReadBusy`. -/
def TurnOnDisplay : List EpdEvent :=
  send_command 0x22 ++ send_data 0xf7 ++ send_command 0x20 ++ readBusy_evt

/-- The `linewidth` computation in `Clear`:
`int(width/8)` if `width % 8 == 0`, else `int(width/8) + 1`. -/
def linewidth : Nat := if width % 8 = 0 then width / 8 else width / 8 + 1

/-- `Clear(color)`: write-RAM command `0x24`, one bulk transfer of
`[color] * int(height * linewidth)`, then `TurnOnDisplay`. -/
def Clear (color : Nat) : List EpdEvent :=
  send_command 0x24 ++
  send_data2 (List.replicate (height * linewidth) color) ++
  TurnOnDisplay

/-- `displayPartBaseImage(image)`: the buffer to `0x24`, then unchanged to
`0x26`, then `TurnOnDisplay`. -/
def displayPartBaseImage (image : List Nat) : List EpdEvent :=
  send_command 0x24 ++ send_data2 image ++
  send_command 0x26 ++ send_data2 image ++
  TurnOnDisplay

/-- `ReadBusy`: `while digital_read(busy) == 1: delay_ms(10)` — an
unbounded poll with no timeout.  Modelled with explicit fuel: the result
is `some k` when the line first reads idle at poll `k` within `fuel`
polls, and `none` when every one of the `fuel` polls read busy (the
Python loop is still running at that point). -/
def readBusyPolls (busy : Nat → Bool) : Nat → Nat → Option Nat
  | _, 0 => none
  | k, fuel + 1 => if busy k then readBusyPolls busy (k + 1) fuel else some k

/-- `getbuffer(image)`: an image whose size is exactly `(width, height)`
is packed as-is; `(height, width)` is rotated then packed; any other size
returns `[0x00] * (int(width/8) * height)` without raising.  The two
PIL packing results are parameters (`packed`, `packedRotated`), since the
branch structure and the fallback are what is embedded here. -/
def getbuffer (imwidth imheight : Nat) (packed packedRotated : List Nat) :
    List Nat :=
  if imwidth = width ∧ imheight = height then packed
  else if imwidth = height ∧ imheight = width then packedRotated
  else List.replicate ((width / 8) * height) 0x00

end EpdV4

namespace ButtonInput

/-- Press-tracking state of `ButtonInputHandler`:
`press_start_time: Optional[float]` and `long_press_triggered: bool`.
Time is modelled in integer milliseconds. -/
structure PressState where
  press_start_time : Option Nat
  long_press_triggered : Bool
deriving Repr, DecidableEq

/-- `_on_button_pressed` at time `now`: record the press start and clear
the long-press latch. -/
def onButtonPressed (now : Nat) (_st : PressState) : PressState :=
  { press_start_time := some now, long_press_triggered := false }

/-- One iteration of the `_monitor_long_press` loop body, executed at time
`now` with the button's current level `isPressed`: if a press is being
tracked, the latch is clear, the elapsed duration has reached the
threshold and the button is still held, set the latch and fire
`on_long_press` (the returned boolean). -/
def monitorIteration (threshold now : Nat) (isPressed : Bool)
    (st : PressState) : PressState × Bool :=
  match st.press_start_time with
  | some t0 =>
    if ¬st.long_press_triggered ∧ threshold ≤ now - t0 ∧ isPressed then
      ({ st with long_press_triggered := true }, true)
    else (st, false)
  | none => (st, false)

/-- `_on_button_released` at time `now`: a no-op when no press is tracked;
otherwise clear `press_start_time`, and fire `on_short_press` (the
returned boolean) exactly when the latch is clear and the elapsed
duration is below the threshold. -/
def onButtonReleased (threshold now : Nat) (st : PressState) :
    PressState × Bool :=
  match st.press_start_time with
  | none => (st, false)
  | some t0 =>
    let duration := now - t0
    let st' := { st with press_start_time := none }
    if st.long_press_triggered then (st', false)
    else if duration < threshold then (st', true)
    else (st', false)

/-- Run the long-press monitor over the given poll times (all during the
hold, so the button reads pressed), counting `on_long_press` firings. -/
def runMonitor (threshold : Nat) : List Nat → PressState → PressState × Nat
  | [], st => (st, 0)
  | p :: rest, st =>
    let r := monitorIteration threshold p true st
    let rest' := runMonitor threshold rest r.1
    (rest'.1, (if r.2 then 1 else 0) + rest'.2)

/-- One full physical press–release cycle: press at time `0`, monitor
polls at the times in `polls` (each during the hold), release at time
`release`.  Returns `(number of on_long_press firings, number of
on_short_press firings)`. -/
def pressCycle (threshold : Nat) (polls : List Nat) (release : Nat) :
    Nat × Nat :=
  let st0 := onButtonPressed 0 { press_start_time := none,
                                 long_press_triggered := false }
  let m := runMonitor threshold polls st0
  let r := onButtonReleased threshold release m.1
  (m.2, if r.2 then 1 else 0)

/-- The guarded short-press dispatch in `_on_button_released`:
`if self.on_short_press: try: self.on_short_press() except ...: log`.
The callback is `none` when unset, otherwise its outcome (`Except.error`
models a raised exception).  The result is the list of error-log lines;
an `Except.error` result of the dispatch itself would model a propagated
exception, which never happens here. -/
def dispatchShortPress (cb : Option (Except String Unit)) :
    Except String (List String) :=
  match cb with
  | none => Except.ok []
  | some (Except.ok _) => Except.ok []
  | some (Except.error e) =>
    Except.ok ["Error in short press callback: " ++ e]

/-- The guarded long-press dispatch in `_monitor_long_press`, with the
same catch-and-log structure. -/
def dispatchLongPress (cb : Option (Except String Unit)) :
    Except String (List String) :=
  match cb with
  | none => Except.ok []
  | some (Except.ok _) => Except.ok []
  | some (Except.error e) =>
    Except.ok ["Error in long press callback: " ++ e]

end ButtonInput

namespace TouchHandler

/-- One iteration of `_irq_loop`: the guarded body
`try: touch := (digital_read == 0) except e: on_error(e)` followed by the
sleep.  `readResult` is the GPIO read (`Except.error` = it raised);
`onError` is the user-suppliable error callback, itself fallible.  An
exception raised by `on_error` is *outside* the `try`, so it propagates
(result `Except.error`). -/
def irqIteration (readResult : Except String Nat)
    (onError : String → Except String Unit) (touch : Nat) :
    Except String Nat :=
  match readResult with
  | Except.ok v => Except.ok (if v = 0 then 1 else 0)
  | Except.error e =>
    match onError e with
    | Except.ok _ => Except.ok touch
    | Except.error e2 => Except.error e2

/-- The `_irq_loop` polling loop over a finite schedule of GPIO read
results: returns the final `gt_dev.Touch` value and the number of
completed iterations, or the exception that escaped the loop (killing
the polling thread). -/
def irqLoop (reads : List (Except String Nat))
    (onError : String → Except String Unit) (touch : Nat) :
    Except String (Nat × Nat) :=
  match reads with
  | [] => Except.ok (touch, 0)
  | r :: rest =>
    match irqIteration r onError touch with
    | Except.ok t =>
      match irqLoop rest onError t with
      | Except.ok p => Except.ok (p.1, p.2 + 1)
      | Except.error e => Except.error e
    | Except.error e => Except.error e

/-- An `on_error` callback that itself raises (re-raises its argument). -/
def raisingErrorHandler : String → Except String Unit :=
  fun e => Except.error e

end TouchHandler

/-! ## Theorems -/

/-- C3: for raw touch coordinates `rx, ry < 1024`, the remapping computes
`raw * axis_max / 1024` (integer result), the result is strictly below the
panel dimension for that axis (`X_MAX = 250`, `Y_MAX = 122`), and each
remapping function is monotone non-decreasing in its argument. -/
theorem touch_remap_bounds_and_monotone (rx ry : Nat)
    (hx : rx < 1024) (hy : ry < 1024) :
    GT1151.map_x rx = rx * GT1151.X_MAX / 1024 ∧
    GT1151.map_y ry = ry * GT1151.Y_MAX / 1024 ∧
    GT1151.map_x rx < GT1151.X_MAX ∧
    GT1151.map_y ry < GT1151.Y_MAX ∧
    (∀ a b : Nat, a ≤ b → GT1151.map_x a ≤ GT1151.map_x b) ∧
    (∀ a b : Nat, a ≤ b → GT1151.map_y a ≤ GT1151.map_y b) := by
  refine ⟨rfl, rfl, ?_, ?_, ?_, ?_⟩
  · unfold GT1151.map_x GT1151.X_MAX
    omega
  · unfold GT1151.map_y GT1151.Y_MAX
    omega
  · intro a b h
    exact Nat.div_le_div_right (Nat.mul_le_mul_right _ h)
  · intro a b h
    exact Nat.div_le_div_right (Nat.mul_le_mul_right _ h)

/-- Witness for C3 at the concrete raw coordinates `(1023, 1023)`. -/
theorem touch_remap_bounds_and_monotone_witness :
    GT1151.map_x 1023 < GT1151.X_MAX ∧ GT1151.map_y 1023 < GT1151.Y_MAX :=
  ⟨(touch_remap_bounds_and_monotone 1023 1023 (by decide) (by decide)).2.2.1,
   (touch_remap_bounds_and_monotone 1023 1023 (by decide)
      (by decide)).2.2.2.1⟩

/-- C5: for every framebuffer, `displayPartBaseImage` on both driver
revisions writes the byte-identical buffer to the `0x24` ("old data") and
`0x26` ("new data") RAM banks — the two bulk payloads are both `buf` —
and then performs the full-refresh activate (`0x22`, `0xf7`, `0x20`) and
waits for idle. -/
theorem displayPartBaseImage_writes_identical (buf : List Nat) :
    bulkPayloads (EpdV3.displayPartBaseImage buf) = [buf, buf] ∧
    bulkPayloads (EpdV4.displayPartBaseImage buf) = [buf, buf] ∧
    EpdV3.displayPartBaseImage buf =
      [EpdEvent.cmd 0x24, EpdEvent.bulk buf, EpdEvent.cmd 0x26,
       EpdEvent.bulk buf, EpdEvent.cmd 0x22, EpdEvent.data 0xf7,
       EpdEvent.cmd 0x20, EpdEvent.waitIdle] ∧
    EpdV4.displayPartBaseImage buf =
      [EpdEvent.cmd 0x24, EpdEvent.bulk buf, EpdEvent.cmd 0x26,
       EpdEvent.bulk buf, EpdEvent.cmd 0x22, EpdEvent.data 0xf7,
       EpdEvent.cmd 0x20, EpdEvent.waitIdle] :=
  ⟨rfl, rfl, rfl, rfl⟩

/-- C4 counterexample: the V4 driver's `Clear(0xFF)` bulk payload has
4000 bytes (`height * ceil(width/8)`), not `height * width / 8 = 3812` as
the claim states for every `clear`. -/
theorem clearV4_payload_length_counterexample :
    (bulkPayloads (EpdV4.Clear 0xFF)).map List.length = [4000] ∧
    EpdV4.height * EpdV4.width / 8 = 3812 ∧
    (bulkPayloads (EpdV4.Clear 0xFF)).map List.length ≠
      [EpdV4.height * EpdV4.width / 8] := by
  refine ⟨?_, by decide, ?_⟩
  · simp only [EpdV4.Clear, EpdV4.send_command, EpdV4.send_data2,
      EpdV4.TurnOnDisplay, EpdV4.send_data, EpdV4.readBusy_evt,
      List.cons_append, List.nil_append, bulkPayloads, List.map_cons,
      List.map_nil, List.length_replicate]
    decide
  · simp only [EpdV4.Clear, EpdV4.send_command, EpdV4.send_data2,
      EpdV4.TurnOnDisplay, EpdV4.send_data, EpdV4.readBusy_evt,
      List.cons_append, List.nil_append, bulkPayloads, List.map_cons,
      List.map_nil, List.length_replicate]
    decide

/-- C4 (amended): `Clear(color)` on each driver issues the write-RAM
command `0x24` followed by a single bulk transfer whose payload consists
entirely of `color` bytes — of length `height * (width / 8) = 3812`
(floor) on V3 but `height * ceil(width / 8) = 4000` on V4 — then the
full-refresh activate sequence `0x22`, `0xf7`, `0x20` and a busy-wait. -/
theorem clear_trace (color : Nat) :
    EpdV3.Clear color =
      [EpdEvent.cmd 0x24, EpdEvent.bulk (List.replicate 3812 color),
       EpdEvent.cmd 0x22, EpdEvent.data 0xf7, EpdEvent.cmd 0x20,
       EpdEvent.waitIdle] ∧
    EpdV4.Clear color =
      [EpdEvent.cmd 0x24, EpdEvent.bulk (List.replicate 4000 color),
       EpdEvent.cmd 0x22, EpdEvent.data 0xf7, EpdEvent.cmd 0x20,
       EpdEvent.waitIdle] ∧
    3812 = EpdV3.HEIGHT * EpdV3.WIDTH / 8 ∧
    4000 = EpdV4.height * ((EpdV4.width + 7) / 8) ∧
    (bulkPayloads (EpdV3.Clear color)).length = 1 ∧
    (bulkPayloads (EpdV4.Clear color)).length = 1 :=
  ⟨rfl, rfl, by decide, by decide, rfl, rfl⟩

/-- C10: for an image whose dimensions match neither `(width, height)`
nor `(height, width)`, the V4 `getbuffer` returns (without raising) a
list of exactly `int(width/8) * height = 3750` bytes, all `0x00` — which
differs from the documented framebuffer size
`ceil(width/8) * height = 4000`. -/
theorem getbufferV4_fallback (imwidth imheight : Nat)
    (packed packedRotated : List Nat)
    (h1 : ¬(imwidth = EpdV4.width ∧ imheight = EpdV4.height))
    (h2 : ¬(imwidth = EpdV4.height ∧ imheight = EpdV4.width)) :
    EpdV4.getbuffer imwidth imheight packed packedRotated =
      List.replicate 3750 0x00 ∧
    (EpdV4.getbuffer imwidth imheight packed packedRotated).length =
      3750 ∧
    3750 = (EpdV4.width / 8) * EpdV4.height ∧
    3750 ≠ ((EpdV4.width + 7) / 8) * EpdV4.height := by
  have e : EpdV4.getbuffer imwidth imheight packed packedRotated =
      List.replicate ((EpdV4.width / 8) * EpdV4.height) 0x00 := by
    unfold EpdV4.getbuffer
    rw [if_neg h1, if_neg h2]
  refine ⟨e, ?_, by decide, by decide⟩
  rw [e, List.length_replicate]
  decide

/-- Witness for C10 at the concrete dimensions `(10, 10)`. -/
theorem getbufferV4_fallback_witness :
    EpdV4.getbuffer 10 10 [] [] = List.replicate 3750 0x00 :=
  (getbufferV4_fallback 10 10 [] [] (by decide) (by decide)).1

/-- C7 counterexample: `scan()` copies only `X[0]`, `Y[0]` and `Touch`
into the previous frame; with a current frame whose second point is
`(9, 4)`, the previous frame after `scan` differs from the pre-call
current frame at index 1. -/
theorem scan_snapshot_counterexample :
    ((GT1151.scan false
        { Touch := 2, X := [7, 9, 0, 0, 0], Y := [3, 4, 0, 0, 0],
          S := List.replicate 5 0 }
        GT1151.GT_Old.init (some [0]) (fun _ => none)).2).X
      = [7, 0, 0, 0, 0] ∧
    ((GT1151.scan false
        { Touch := 2, X := [7, 9, 0, 0, 0], Y := [3, 4, 0, 0, 0],
          S := List.replicate 5 0 }
        GT1151.GT_Old.init (some [0]) (fun _ => none)).2).X
      ≠ [7, 9, 0, 0, 0] := by
  decide

/-- C7 (amended): `scan()` snapshots only the first point and the count
— it copies `X[0]`, `Y[0]` and `Touch` by value from the current frame
into the previous frame before `read_touch()` overwrites the current
frame; the remaining previous-frame entries (`X[1..4]`, `Y[1..4]`, `S`)
are left as they were. -/
theorem scan_saves_first_point_only (mock : Bool)
    (dev : GT1151.GT_Development) (old : GT1151.GT_Old)
    (pointInfo : Option (List Nat)) (pointData : Nat → Option (List Nat))
    (hx : old.X.length = 5) (hy : old.Y.length = 5) :
    (GT1151.scan mock dev old pointInfo pointData).2 =
      GT1151.scanSaveOld dev old ∧
    (GT1151.scan mock dev old pointInfo pointData).1 =
      GT1151.read_touch mock dev pointInfo pointData ∧
    (GT1151.scanSaveOld dev old).Touch = dev.Touch ∧
    (GT1151.scanSaveOld dev old).X.getD 0 0 = dev.X.getD 0 0 ∧
    (GT1151.scanSaveOld dev old).Y.getD 0 0 = dev.Y.getD 0 0 ∧
    (∀ i, 1 ≤ i →
      (GT1151.scanSaveOld dev old).X.getD i 0 = old.X.getD i 0 ∧
      (GT1151.scanSaveOld dev old).Y.getD i 0 = old.Y.getD i 0) ∧
    (GT1151.scanSaveOld dev old).S = old.S := by
  refine ⟨rfl, rfl, rfl, ?_, ?_, ?_, rfl⟩
  · simp [GT1151.scanSaveOld, List.getD_eq_getElem?_getD,
      List.getElem?_set_self, hx]
  · simp [GT1151.scanSaveOld, List.getD_eq_getElem?_getD,
      List.getElem?_set_self, hy]
  · intro i hi
    have h0 : (0 : Nat) ≠ i := by omega
    constructor
    · simp [GT1151.scanSaveOld, List.getD_eq_getElem?_getD,
        List.getElem?_set_ne h0]
    · simp [GT1151.scanSaveOld, List.getD_eq_getElem?_getD,
        List.getElem?_set_ne h0]

/-- Witness for C7 (amended) at a concrete pair of frames. -/
theorem scan_saves_first_point_only_witness :
    ((GT1151.scan true
        { Touch := 2, X := [1, 0, 0, 0, 0], Y := [2, 0, 0, 0, 0],
          S := List.replicate 5 0 }
        GT1151.GT_Old.init none (fun _ => none)).2) =
      GT1151.scanSaveOld
        { Touch := 2, X := [1, 0, 0, 0, 0], Y := [2, 0, 0, 0, 0],
          S := List.replicate 5 0 } GT1151.GT_Old.init :=
  (scan_saves_first_point_only true
    { Touch := 2, X := [1, 0, 0, 0, 0], Y := [2, 0, 0, 0, 0],
      S := List.replicate 5 0 }
    GT1151.GT_Old.init none (fun _ => none) (by decide) (by decide)).1

/-- C9 counterexample: with a stored count of 3, a failed point-info read
(`None`) makes `read_touch` return 0 while leaving `gt_dev.Touch` at 3 —
the return value and the stored count disagree, and this error path does
not leave `gt_dev.Touch` at 0. -/
theorem read_touch_stale_count_counterexample :
    (GT1151.read_touch false
        { Touch := 3, X := List.replicate 5 0, Y := List.replicate 5 0,
          S := List.replicate 5 0 } none (fun _ => none)).ret = 0 ∧
    (GT1151.read_touch false
        { Touch := 3, X := List.replicate 5 0, Y := List.replicate 5 0,
          S := List.replicate 5 0 } none (fun _ => none)).dev.Touch
      = 3 := by
  decide

/-- C9 (amended): every `read_touch` call returns a count in `[0, 5]`; in
mock mode the return value and the stored count are both 0; on every
non-mock path with a truthy point-info read the return value equals the
post-call stored count `gt_dev.Touch`; but a falsy point-info read
(I2C failure or empty read) returns 0 while leaving the device state —
including `gt_dev.Touch` — unchanged. -/
theorem read_touch_count_invariant (mock : Bool)
    (dev : GT1151.GT_Development) (pointInfo : Option (List Nat))
    (pointData : Nat → Option (List Nat)) :
    (GT1151.read_touch mock dev pointInfo pointData).ret ≤ 5 ∧
    (mock = true →
      (GT1151.read_touch mock dev pointInfo pointData).ret = 0 ∧
      (GT1151.read_touch mock dev pointInfo pointData).dev.Touch = 0) ∧
    (mock = false → (pointInfo = none ∨ pointInfo = some []) →
      (GT1151.read_touch mock dev pointInfo pointData).ret = 0 ∧
      (GT1151.read_touch mock dev pointInfo pointData).dev = dev) ∧
    (mock = false → ∀ info, pointInfo = some info → info ≠ [] →
      (GT1151.read_touch mock dev pointInfo pointData).ret =
        (GT1151.read_touch mock dev pointInfo pointData).dev.Touch) := by
  unfold GT1151.read_touch
  refine ⟨?_, ?_, ?_, ?_⟩ <;> intros <;> (repeat' split) <;> simp_all

/-- Helper: the parse loop of `read_touch` writes, for every `i < n`,
the mapped decode of point `i` into `X[i]` and `Y[i]`, preserves the
array lengths and leaves `Touch` and `S` alone. -/
theorem parsePoints_getD (bytes : List Nat) :
    ∀ (n : Nat) (dev : GT1151.GT_Development),
      dev.X.length = 5 → dev.Y.length = 5 → n ≤ 5 →
      (∀ i, i < n → 8 * i + 4 < bytes.length) →
      (GT1151.parsePoints dev bytes n).X.length = 5 ∧
      (GT1151.parsePoints dev bytes n).Y.length = 5 ∧
      (GT1151.parsePoints dev bytes n).Touch = dev.Touch ∧
      (GT1151.parsePoints dev bytes n).S = dev.S ∧
      ∀ i, i < n →
        (GT1151.parsePoints dev bytes n).X.getD i 0 =
          GT1151.map_x (GT1151.decodeRawX bytes i) ∧
        (GT1151.parsePoints dev bytes n).Y.getD i 0 =
          GT1151.map_y (GT1151.decodeRawY bytes i) := by
  intro n
  induction n with
  | zero =>
    intro dev hx hy _ _
    exact ⟨hx, hy, rfl, rfl, fun i hi => absurd hi (by omega)⟩
  | succ n ih =>
    intro dev hx hy hn hlen
    obtain ⟨ihx, ihy, iht, ihs, ihget⟩ :=
      ih dev hx hy (by omega) (fun i hi => hlen i (by omega))
    have hstep : GT1151.parsePoints dev bytes (n + 1) =
        GT1151.parsePoint (GT1151.parsePoints dev bytes n) bytes n := by
      unfold GT1151.parsePoints
      rw [List.range_succ, List.foldl_append]
      rfl
    have hguard : 8 * n + 4 < bytes.length := hlen n (by omega)
    have hpoint : GT1151.parsePoint (GT1151.parsePoints dev bytes n)
        bytes n =
        { GT1151.parsePoints dev bytes n with
          X := (GT1151.parsePoints dev bytes n).X.set n
                 (GT1151.map_x (GT1151.decodeRawX bytes n)),
          Y := (GT1151.parsePoints dev bytes n).Y.set n
                 (GT1151.map_y (GT1151.decodeRawY bytes n)) } := by
      unfold GT1151.parsePoint
      rw [if_pos hguard]
    rw [hstep, hpoint]
    refine ⟨by simp [ihx], by simp [ihy], iht, ihs, ?_⟩
    intro i hi
    rcases Nat.lt_or_ge i n with hin | hin
    · have hne : n ≠ i := by omega
      constructor
      · simp only [List.getD_eq_getElem?_getD, List.getElem?_set_ne hne]
        have hres := (ihget i hin).1
        rw [List.getD_eq_getElem?_getD] at hres
        exact hres
      · simp only [List.getD_eq_getElem?_getD, List.getElem?_set_ne hne]
        have hres := (ihget i hin).2
        rw [List.getD_eq_getElem?_getD] at hres
        exact hres
    · have hieq : i = n := by omega
      subst hieq
      have hilt : i < (GT1151.parsePoints dev bytes i).X.length := by
        rw [ihx]; omega
      have hilt' : i < (GT1151.parsePoints dev bytes i).Y.length := by
        rw [ihy]; omega
      constructor
      · simp [List.getD_eq_getElem?_getD, List.getElem?_set_self, hilt]
      · simp [List.getD_eq_getElem?_getD, List.getElem?_set_self, hilt']

/-- C2: taking `c` as the low nibble of the point-info byte `b`:
if `1 ≤ c ≤ 5` then `read_touch` issues one point-data read of `c * 8`
bytes, returns `c`, and stores for each `i < c` the decoded coordinates
`x = bytes[8i+1] | bytes[8i+2] << 8`, `y = bytes[8i+3] | bytes[8i+4] << 8`
(mapped to panel space); if `c = 0` or `c > 5` it returns 0 touches and
issues no point-data read. -/
theorem read_touch_decode (b : Nat) (dev : GT1151.GT_Development)
    (pointData : Nat → Option (List Nat)) (bytes : List Nat)
    (hx : dev.X.length = 5) (hy : dev.Y.length = 5)
    (hdata : pointData ((b &&& 0x0F) * 8) = some bytes)
    (hlen : bytes.length = (b &&& 0x0F) * 8) :
    (1 ≤ b &&& 0x0F → b &&& 0x0F ≤ 5 →
      (GT1151.read_touch false dev (some [b]) pointData).ret =
        (b &&& 0x0F) ∧
      (GT1151.read_touch false dev (some [b]) pointData).dataReads =
        [(b &&& 0x0F) * 8] ∧
      (GT1151.read_touch false dev (some [b]) pointData).dev.Touch =
        (b &&& 0x0F) ∧
      (∀ i, i < b &&& 0x0F →
        (GT1151.read_touch false dev (some [b])
            pointData).dev.X.getD i 0 =
          GT1151.map_x (GT1151.decodeRawX bytes i) ∧
        (GT1151.read_touch false dev (some [b])
            pointData).dev.Y.getD i 0 =
          GT1151.map_y (GT1151.decodeRawY bytes i))) ∧
    (b &&& 0x0F = 0 ∨ 5 < b &&& 0x0F →
      (GT1151.read_touch false dev (some [b]) pointData).ret = 0 ∧
      (GT1151.read_touch false dev (some [b]) pointData).dev.Touch = 0 ∧
      (GT1151.read_touch false dev (some [b]) pointData).dataReads =
        []) := by
  constructor
  · intro h1 h5
    have hbne : ¬bytes = [] := by
      intro hb
      rw [hb] at hlen
      simp at hlen
      omega
    have hnl : ¬bytes.length < (b &&& 0x0F) * 8 := by omega
    have e : GT1151.read_touch false dev (some [b]) pointData =
        { ret := b &&& 0x0F,
          dev := { GT1151.parsePoints dev bytes (b &&& 0x0F) with
                   Touch := b &&& 0x0F },
          dataReads := [(b &&& 0x0F) * 8], ack := true } := by
      unfold GT1151.read_touch
      simp [hdata, hbne, hnl, h1, h5]
      omega
    obtain ⟨_, _, _, _, hget⟩ :=
      parsePoints_getD bytes (b &&& 0x0F) dev hx hy h5
        (fun i hi => by omega)
    rw [e]
    exact ⟨rfl, rfl, rfl, fun i hi => hget i hi⟩
  · intro h
    have hc : ¬(0 < b &&& 0x0F ∧ b &&& 0x0F ≤ 5) := by omega
    have e : GT1151.read_touch false dev (some [b]) pointData =
        { ret := 0, dev := { dev with Touch := 0 },
          dataReads := [], ack := false } := by
      unfold GT1151.read_touch
      simp [hc]
    rw [e]
    exact ⟨rfl, rfl, rfl⟩

/-- Witness for C2: point-info byte `0x12` (count nibble 2), with a
16-byte point-data buffer whose two points decode to raw `(258, 772)`
and `(1, 2)`. -/
theorem read_touch_decode_witness :
    (GT1151.read_touch false GT1151.GT_Development.init
        (some [0x12])
        (fun _ => some [0, 2, 1, 4, 3, 0, 0, 0,
                        0, 1, 0, 2, 0, 0, 0, 0])).ret = 2 ∧
    (GT1151.read_touch false GT1151.GT_Development.init
        (some [0x12])
        (fun _ => some [0, 2, 1, 4, 3, 0, 0, 0,
                        0, 1, 0, 2, 0, 0, 0, 0])).dev.X.getD 0 0 =
      GT1151.map_x 258 := by
  have h := read_touch_decode 0x12 GT1151.GT_Development.init
    (fun _ => some [0, 2, 1, 4, 3, 0, 0, 0, 0, 1, 0, 2, 0, 0, 0, 0])
    [0, 2, 1, 4, 3, 0, 0, 0, 0, 1, 0, 2, 0, 0, 0, 0]
    (by decide) (by decide) rfl (by decide)
  refine ⟨(h.1 (by decide) (by decide)).1, ?_⟩
  have hx := ((h.1 (by decide) (by decide)).2.2.2 0 (by decide)).1
  rw [hx]
  decide

/-- Helper: once the long-press latch is set, further monitor iterations
change nothing and fire nothing. -/
theorem runMonitor_latched (threshold : Nat) :
    ∀ (polls : List Nat) (st : ButtonInput.PressState),
      st.long_press_triggered = true →
      ButtonInput.runMonitor threshold polls st = (st, 0) := by
  intro polls
  induction polls with
  | nil => intro st _; rfl
  | cons p rest ih =>
    intro st hl
    have hiter : ButtonInput.monitorIteration threshold p true st =
        (st, false) := by
      unfold ButtonInput.monitorIteration
      cases hps : st.press_start_time with
      | none => rfl
      | some t0 => simp [hl]
    unfold ButtonInput.runMonitor
    rw [hiter]
    simp [ih st hl]

/-- Helper: starting from a press recorded at time 0 with the latch
clear, the monitor run keeps the press-start time, sets the latch exactly
when some poll during the hold has elapsed at least the threshold, and
fires `on_long_press` exactly once when it latches and never otherwise. -/
theorem runMonitor_unlatched (threshold : Nat) :
    ∀ (polls : List Nat) (st : ButtonInput.PressState),
      st.press_start_time = some 0 →
      st.long_press_triggered = false →
      (ButtonInput.runMonitor threshold polls st).1.press_start_time =
        some 0 ∧
      ((ButtonInput.runMonitor threshold polls
          st).1.long_press_triggered = true ↔
        ∃ p ∈ polls, threshold ≤ p) ∧
      (ButtonInput.runMonitor threshold polls st).2 =
        (if (ButtonInput.runMonitor threshold polls
              st).1.long_press_triggered then 1 else 0) := by
  intro polls
  induction polls with
  | nil =>
    intro st hps hl
    refine ⟨hps, ?_, ?_⟩ <;> simp [ButtonInput.runMonitor, hl]
  | cons p rest ih =>
    intro st hps hl
    by_cases hth : threshold ≤ p
    · have hiter : ButtonInput.monitorIteration threshold p true st =
          ({ st with long_press_triggered := true }, true) := by
        unfold ButtonInput.monitorIteration
        rw [hps]
        simp [hl, hth]
      have hrest := runMonitor_latched threshold rest
        { st with long_press_triggered := true } rfl
      have hrun : ButtonInput.runMonitor threshold (p :: rest) st =
          ({ st with long_press_triggered := true }, 1) := by
        conv_lhs => unfold ButtonInput.runMonitor
        rw [hiter]
        simp [hrest]
      rw [hrun]
      refine ⟨hps, ?_, rfl⟩
      simp only [true_iff]
      exact ⟨p, List.mem_cons_self p rest, hth⟩
    · have hiter : ButtonInput.monitorIteration threshold p true st =
          (st, false) := by
        unfold ButtonInput.monitorIteration
        rw [hps]
        simp [hth]
      obtain ⟨ih1, ih2, ih3⟩ := ih st hps hl
      have hrun : ButtonInput.runMonitor threshold (p :: rest) st =
          ButtonInput.runMonitor threshold rest st := by
        conv_lhs => unfold ButtonInput.runMonitor
        rw [hiter]
        simp
      rw [hrun]
      refine ⟨ih1, ?_, ih3⟩
      rw [ih2]
      constructor
      · intro hex
        obtain ⟨q, hq, hthq⟩ := hex
        exact ⟨q, List.mem_cons_of_mem p hq, hthq⟩
      · intro hex
        obtain ⟨q, hq, hthq⟩ := hex
        rcases List.mem_cons.mp hq with hqp | hqr
        · exact absurd (hqp ▸ hthq) hth
        · exact ⟨q, hqr, hthq⟩

/-- C1: per press–release cycle (press at time 0, monitor polls during the
hold, release at `release`), at most one of the long-press and short-press
callbacks fires; if some monitor poll observes an elapsed hold of at least
the threshold, exactly one `on_long_press` fires and no `on_short_press`;
if the release comes before the threshold, exactly one `on_short_press`
fires and no `on_long_press`. -/
theorem button_press_cycle (threshold : Nat) (polls : List Nat)
    (release : Nat) (hp : ∀ p ∈ polls, p < release) :
    ((ButtonInput.pressCycle threshold polls release).1 +
      (ButtonInput.pressCycle threshold polls release).2 ≤ 1) ∧
    ((∃ p ∈ polls, threshold ≤ p) →
      (ButtonInput.pressCycle threshold polls release).1 = 1 ∧
      (ButtonInput.pressCycle threshold polls release).2 = 0) ∧
    (release < threshold →
      (ButtonInput.pressCycle threshold polls release).1 = 0 ∧
      (ButtonInput.pressCycle threshold polls release).2 = 1) := by
  obtain ⟨hm1, hm2, hm3⟩ := runMonitor_unlatched threshold polls
    { press_start_time := some 0, long_press_triggered := false } rfl rfl
  have hfst : (ButtonInput.pressCycle threshold polls release).1 =
      (ButtonInput.runMonitor threshold polls
        { press_start_time := some 0,
          long_press_triggered := false }).2 := rfl
  have hsnd : (ButtonInput.pressCycle threshold polls release).2 =
      (if (ButtonInput.onButtonReleased threshold release
            (ButtonInput.runMonitor threshold polls
              { press_start_time := some 0,
                long_press_triggered := false }).1).2
       then 1 else 0) := rfl
  cases hl : (ButtonInput.runMonitor threshold polls
      { press_start_time := some 0,
        long_press_triggered := false }).1.long_press_triggered with
  | true =>
    have hrel : (ButtonInput.onButtonReleased threshold release
        (ButtonInput.runMonitor threshold polls
          { press_start_time := some 0,
            long_press_triggered := false }).1).2 = false := by
      unfold ButtonInput.onButtonReleased
      rw [hm1]
      simp [hl]
    have hcount : (ButtonInput.pressCycle threshold polls release).1 =
        1 := by
      rw [hfst, hm3, hl]
      simp
    have hshort : (ButtonInput.pressCycle threshold polls release).2 =
        0 := by
      rw [hsnd, hrel]
      simp
    refine ⟨by omega, fun _ => ⟨hcount, hshort⟩, ?_⟩
    intro hrt
    obtain ⟨q, hq, hthq⟩ := hm2.mp hl
    have := hp q hq
    omega
  | false =>
    have hcount : (ButtonInput.pressCycle threshold polls release).1 =
        0 := by
      rw [hfst, hm3, hl]
      simp
    have hnolong : ¬∃ p ∈ polls, threshold ≤ p := by
      intro hex
      rw [← hm2] at hex
      rw [hl] at hex
      exact Bool.false_ne_true hex
    by_cases hrt : release < threshold
    · have hrel : (ButtonInput.onButtonReleased threshold release
          (ButtonInput.runMonitor threshold polls
            { press_start_time := some 0,
              long_press_triggered := false }).1).2 = true := by
        unfold ButtonInput.onButtonReleased
        rw [hm1]
        simp [hl, hrt]
      have hshort : (ButtonInput.pressCycle threshold polls release).2 =
          1 := by
        rw [hsnd, hrel]
        simp
      refine ⟨by omega, fun hex => absurd hex hnolong,
        fun _ => ⟨hcount, hshort⟩⟩
    · have hrel : (ButtonInput.onButtonReleased threshold release
          (ButtonInput.runMonitor threshold polls
            { press_start_time := some 0,
              long_press_triggered := false }).1).2 = false := by
        unfold ButtonInput.onButtonReleased
        rw [hm1]
        simp [hl, hrt]
      have hshort : (ButtonInput.pressCycle threshold polls release).2 =
          0 := by
        rw [hsnd, hrel]
        simp
      refine ⟨by omega, fun hex => absurd hex hnolong,
        fun hrt' => absurd hrt' hrt⟩

/-- Witness for C1: a 2.5 s hold with 100 ms monitor polls (threshold
2.0 s, times in ms) fires exactly one long press and no short press. -/
theorem button_press_cycle_witness :
    (ButtonInput.pressCycle 2000 [1900, 2000, 2100] 2500).1 = 1 ∧
    (ButtonInput.pressCycle 2000 [1900, 2000, 2100] 2500).2 = 0 :=
  (button_press_cycle 2000 [1900, 2000, 2100] 2500 (by decide)).2.1
    ⟨2000, by decide, by decide⟩

/-- Witness for C9 (amended): mock-mode call at a concrete state. -/
theorem read_touch_count_invariant_witness :
    (GT1151.read_touch true GT1151.GT_Development.init none
        (fun _ => none)).ret = 0 ∧
    (GT1151.read_touch true GT1151.GT_Development.init none
        (fun _ => none)).dev.Touch = 0 :=
  (read_touch_count_invariant true GT1151.GT_Development.init none
    (fun _ => none)).2.1 rfl

/-- Helper: an always-busy line defeats the V4 `ReadBusy` loop for any
number of polls — it has no timeout. -/
theorem readBusyPolls_const_busy :
    ∀ (fuel k : Nat),
      EpdV4.readBusyPolls (fun _ => true) k fuel = none := by
  intro fuel
  induction fuel with
  | zero => intro k; rfl
  | succ n ih =>
    intro k
    unfold EpdV4.readBusyPolls
    simpa using ih (k + 1)

/-- Helper: when `ReadBusy` does stop, it stopped at a poll that read the
busy line idle. -/
theorem readBusyPolls_stops_on_idle (busy : Nat → Bool) :
    ∀ (fuel k j : Nat),
      EpdV4.readBusyPolls busy k fuel = some j → busy j = false := by
  intro fuel
  induction fuel with
  | zero =>
    intro k j h
    exact absurd h (by simp [EpdV4.readBusyPolls])
  | succ n ih =>
    intro k j h
    unfold EpdV4.readBusyPolls at h
    cases hbk : busy k with
    | true =>
      rw [hbk] at h
      simp at h
      exact ih (k + 1) j h
    | false =>
      rw [hbk] at h
      simp at h
      rw [← h]
      exact hbk

/-- Helper: if the busy line stays busy through poll 1000 (the last poll
inside the 10 s deadline), the V3 wait loop takes its warning/timeout
exit. -/
theorem waitUntilIdleAux_all_busy (busy : Nat → Bool)
    (hb : ∀ j, j ≤ 1000 → busy j = true) :
    ∀ (fuel k : Nat), k ≤ 1000 →
      EpdV3.waitUntilIdleAux busy k fuel = true := by
  intro fuel
  induction fuel with
  | zero => intro k _; rfl
  | succ n ih =>
    intro k hk
    unfold EpdV3.waitUntilIdleAux
    rw [hb k hk]
    by_cases h1 : k + 1 > 1000
    · simp [h1]
    · simp only [if_true, if_neg h1]
      exact ih (k + 1) (by omega)

/-- Helper: if some poll within the deadline reads idle, the V3 wait loop
exits normally. -/
theorem waitUntilIdleAux_finds_idle (busy : Nat → Bool) :
    ∀ (fuel k m : Nat), k ≤ m → m ≤ 1000 → busy m = false →
      1000 < k + fuel → EpdV3.waitUntilIdleAux busy k fuel = false := by
  intro fuel
  induction fuel with
  | zero =>
    intro k m h1 h2 _ h4
    exact absurd h4 (by omega)
  | succ n ih =>
    intro k m hkm hm hbm hf
    unfold EpdV3.waitUntilIdleAux
    cases hbk : busy k with
    | false => simp
    | true =>
      have hkm' : k < m := by
        rcases Nat.lt_or_ge k m with h | h
        · exact h
        · have hkeq : k = m := by omega
          rw [hkeq, hbm] at hbk
          exact absurd hbk (by simp)
      have hnd : ¬(k + 1 > 1000) := by omega
      simp only [if_true, if_neg hnd]
      exact ih (k + 1) m (by omega) hm hbm (by omega)

/-- C6 counterexample: the V4 driver's `ReadBusy` has no timeout — on a
busy line that never reports idle it is still polling after 1001 polls,
i.e. past the 10 s bound the claim says every wait obeys (1001 polls at
10 ms each exceed 10 000 ms). -/
theorem readBusyV4_no_timeout_counterexample :
    EpdV4.readBusyPolls (fun _ => true) 0 1001 = none ∧
    1001 * 10 > 10000 :=
  ⟨readBusyPolls_const_busy 1001 0, by decide⟩

/-- C6 (amended): the V3 `_wait_until_idle` polls every 10 ms against a
fixed (non-parameter) 10 s deadline, exits normally as soon as a poll
within the deadline reads idle, and on timeout logs a warning and returns
normally (no boolean is returned; the modelled boolean is which exit was
taken); in mock mode it returns deterministically after a 10 ms sleep
without polling; the V4 `ReadBusy` polls with no timeout at all, stopping
only when the line reads idle. -/
theorem wait_idle_behaviour (busy : Nat → Bool) :
    ((∃ k, k ≤ 1000 ∧ busy k = false) →
      EpdV3.wait_until_idle busy = false) ∧
    ((∀ k, k ≤ 1000 → busy k = true) →
      EpdV3.wait_until_idle busy = true) ∧
    EpdV3.wait_until_idle_mock = 10 ∧
    (∀ fuel, EpdV4.readBusyPolls (fun _ => true) 0 fuel = none) ∧
    (∀ fuel k j, EpdV4.readBusyPolls busy k fuel = some j →
      busy j = false) := by
  refine ⟨?_, ?_, rfl, fun fuel => readBusyPolls_const_busy fuel 0,
    fun fuel k j h => readBusyPolls_stops_on_idle busy fuel k j h⟩
  · rintro ⟨k, hk, hbk⟩
    exact waitUntilIdleAux_finds_idle busy 1001 0 k (Nat.zero_le k) hk
      hbk (by omega)
  · intro hb
    exact waitUntilIdleAux_all_busy busy hb 1001 0 (by omega)

/-- Witness for C6 (amended): a line busy for five polls then idle. -/
theorem wait_idle_behaviour_witness :
    EpdV3.wait_until_idle (fun k => decide (k < 5)) = false :=
  (wait_idle_behaviour (fun k => decide (k < 5))).1
    ⟨5, by decide, by decide⟩

/-- C8 counterexample: in `_irq_loop`, a GPIO read failure is forwarded to
the user-supplied `on_error` callback *outside* the `try`; if that
callback itself raises, the exception propagates out of the dispatch site
and kills the polling loop — the second scheduled iteration never runs. -/
theorem irq_onError_propagates_counterexample :
    TouchHandler.irqLoop [Except.error "boom", Except.ok 0]
      TouchHandler.raisingErrorHandler 0 = Except.error "boom" := rfl

/-- C8 (amended): exceptions raised by the short-press and long-press
callbacks are caught, logged and discarded at their dispatch sites (the
dispatch never propagates); in the touch polling loop, read errors are
forwarded to `on_error`, and provided `on_error` itself does not raise,
the loop completes every scheduled iteration — but an `on_error` that
raises is not caught (see the counterexample). -/
theorem callback_exception_isolation
    (cbS cbL : Option (Except String Unit))
    (reads : List (Except String Nat))
    (onError : String → Except String Unit) (touch : Nat)
    (hOE : ∀ e, ∃ u, onError e = Except.ok u) :
    (∃ logs, ButtonInput.dispatchShortPress cbS = Except.ok logs) ∧
    (∃ logs, ButtonInput.dispatchLongPress cbL = Except.ok logs) ∧
    (∃ t, TouchHandler.irqLoop reads onError touch =
        Except.ok (t, reads.length)) := by
  refine ⟨?_, ?_, ?_⟩
  · cases cbS with
    | none => exact ⟨[], rfl⟩
    | some r =>
      cases r with
      | ok u => exact ⟨[], rfl⟩
      | error e =>
        exact ⟨["Error in short press callback: " ++ e], rfl⟩
  · cases cbL with
    | none => exact ⟨[], rfl⟩
    | some r =>
      cases r with
      | ok u => exact ⟨[], rfl⟩
      | error e =>
        exact ⟨["Error in long press callback: " ++ e], rfl⟩
  · induction reads generalizing touch with
    | nil => exact ⟨touch, rfl⟩
    | cons r rest ih =>
      obtain ⟨t1, ht1⟩ : ∃ t1,
          TouchHandler.irqIteration r onError touch = Except.ok t1 := by
        cases r with
        | ok v => exact ⟨if v = 0 then 1 else 0, rfl⟩
        | error e =>
          obtain ⟨u, hu⟩ := hOE e
          refine ⟨touch, ?_⟩
          simp [TouchHandler.irqIteration, hu]
      obtain ⟨tf, htf⟩ := ih t1
      refine ⟨tf, ?_⟩
      unfold TouchHandler.irqLoop
      simp [ht1, htf]

/-- Witness for C8 (amended): a loop schedule with one failing read and a
non-raising error handler completes both iterations. -/
theorem callback_exception_isolation_witness :
    ∃ t, TouchHandler.irqLoop [Except.error "a", Except.ok 0]
        (fun _ => Except.ok ()) 0 = Except.ok (t, 2) :=
  (callback_exception_isolation (some (Except.error "x")) none
    [Except.error "a", Except.ok 0] (fun _ => Except.ok ()) 0
    (fun _ => ⟨(), rfl⟩)).2.2
